import Mathlib

/-!
Verification of the Aqua-Bridge backend and client facade.

The definitions below are a shallow embedding of:
  * the OTP endpoints of `src/api-backend/server.js` (`POST /send-otp`,
    `POST /verify-otp`, backed by the in-memory `otpStore` Map),
  * the MongoDB-backed market-price, market-status and harvest-request
    endpoints of the same file,
  * the client API facade (`tryFetch` and the exported operations) bundled in
    `src/twilio-backend/server.js`.

Time is epoch milliseconds as `Nat`; the random 6-digit code produced by
`genOtp` and the random id suffix are passed in as parameters; the outcome of
an external effect (SMS delivery, `fetch`) is passed in as a parameter of an
outcome type.
-/

namespace AquaBridge

/-- An entry of the in-memory OTP store: `otpStore.set(phone, { code, expiresAt })`
in `src/api-backend/server.js`. -/
structure OtpEntry where
  code : String
  expiresAt : Nat
deriving Repr, DecidableEq

/-- The in-memory OTP store (`const otpStore = new Map()`, phone → entry),
modelled as an association list kept duplicate-free by the operations. -/
abbrev OtpStore := List (String × OtpEntry)

/-- `otpStore.get(phone)`. -/
def otpGet : OtpStore → String → Option OtpEntry
  | [], _ => none
  | (p, e) :: rest, phone => if p = phone then some e else otpGet rest phone

/-- `otpStore.delete(phone)`. -/
def otpDelete : OtpStore → String → OtpStore
  | [], _ => []
  | (p, e) :: rest, phone =>
      if p = phone then otpDelete rest phone else (p, e) :: otpDelete rest phone

/-- `otpStore.set(phone, e)`: a JS `Map` holds at most one entry per key. -/
def otpSet (s : OtpStore) (phone : String) (e : OtpEntry) : OtpStore :=
  (phone, e) :: otpDelete s phone

/-- Outcome of `POST /verify-otp`, one constructor per response the route can
produce. -/
inductive VerifyResult where
  | badRequest   -- 400 "phone and code required"
  | notFound     -- 400 "No code found"
  | expired      -- 400 "Code expired"
  | mismatch     -- 400 "Invalid code"
  | success      -- 200 "Verified"
deriving Repr, DecidableEq

/-- `POST /verify-otp` of `src/api-backend/server.js`: returns the response and
the OTP store after the call.  `Date.now() > entry.expiresAt` is
`entry.expiresAt < now`. -/
def verifyOtp (now : Nat) (store : OtpStore) (phone code : String) :
    VerifyResult × OtpStore :=
  if phone = "" ∨ code = "" then (.badRequest, store)
  else
    match otpGet store phone with
    | none => (.notFound, store)
    | some entry =>
      if entry.expiresAt < now then (.expired, otpDelete store phone)
      else if entry.code ≠ code then (.mismatch, store)
      else (.success, otpDelete store phone)

/-- What happened at the Twilio delivery attempt in `POST /send-otp`. -/
inductive Delivery where
  | noClient             -- twilioClient not configured: echo the code
  | delivered (sid : String)
  | providerError        -- `twilioClient.messages.create` threw
deriving Repr, DecidableEq

/-- Outcome of `POST /send-otp`, one constructor per response the route can
produce. -/
inductive SendResult where
  | badRequest             -- 400 "phone required"
  | okEchoCode (code : String)  -- 200, twilio not configured, code echoed
  | okSent (sid : String)       -- 200, SMS dispatched
  | sendFailed             -- 500 { success: false, error: "Failed to send SMS" }
deriving Repr, DecidableEq

/-- HTTP status code of each `POST /send-otp` response. -/
def SendResult.statusCode : SendResult → Nat
  | .badRequest => 400
  | .okEchoCode _ => 200
  | .okSent _ => 200
  | .sendFailed => 500

/-- The `success` field of each `POST /send-otp` response body
(`none` when the body has no such field). -/
def SendResult.successFlag : SendResult → Option Bool
  | .badRequest => none
  | .okEchoCode _ => some true
  | .okSent _ => some true
  | .sendFailed => some false

/-- `expiresAt = Date.now() + 5 * 60 * 1000`. -/
def otpTtlMs : Nat := 5 * 60 * 1000

/-- `POST /send-otp` of `src/api-backend/server.js`: the store write
(`otpStore.set`) happens before the delivery attempt, so every non-400 outcome
leaves the fresh entry stored.  `code` stands for the value returned by
`genOtp()`. -/
def sendOtp (now : Nat) (store : OtpStore) (phone code : String)
    (delivery : Delivery) : SendResult × OtpStore :=
  if phone = "" then (.badRequest, store)
  else
    let store' := otpSet store phone ⟨code, now + otpTtlMs⟩
    match delivery with
    | .noClient => (.okEchoCode code, store')
    | .delivered sid => (.okSent sid, store')
    | .providerError => (.sendFailed, store')

theorem otpGet_otpSet_self (s : OtpStore) (p : String) (e : OtpEntry) :
    otpGet (otpSet s p e) p = some e := by
  simp [otpSet, otpGet]

theorem otpGet_otpDelete_self (s : OtpStore) (p : String) :
    otpGet (otpDelete s p) p = none := by
  induction s with
  | nil => simp [otpDelete, otpGet]
  | cons kv rest ih =>
      obtain ⟨q, e⟩ := kv
      by_cases h : q = p <;> simp [otpDelete, otpGet, h, ih]

theorem otpDelete_idem (s : OtpStore) (p : String) :
    otpDelete (otpDelete s p) p = otpDelete s p := by
  induction s with
  | nil => simp [otpDelete]
  | cons kv rest ih =>
      obtain ⟨q, e⟩ := kv
      by_cases h : q = p <;> simp [otpDelete, h, ih]

theorem otpDelete_otpSet_self (s : OtpStore) (p : String) (e : OtpEntry) :
    otpDelete (otpSet s p e) p = otpDelete s p := by
  simp [otpSet, otpDelete, otpDelete_idem]

theorem sendOtp_snd (now : Nat) (store : OtpStore) (phone code : String)
    (d : Delivery) (hp : phone ≠ "") :
    (sendOtp now store phone code d).2
      = otpSet store phone ⟨code, now + otpTtlMs⟩ := by
  cases d <;> simp [sendOtp, hp]

/-- C1: verifying when no entry is stored for the phone (in particular before
the first send) fails with NotFound; after a send, verifying the correct code
before expiry succeeds and deletes the entry, and a second verify with the same
code thereafter fails with NotFound — the code is single-use. -/
theorem otp_code_single_use (store : OtpStore) (phone code : String)
    (t0 t1 t2 : Nat) (d : Delivery)
    (hp : phone ≠ "") (hc : code ≠ "")
    (h0 : otpGet store phone = none) (ht : t1 ≤ t0 + otpTtlMs) :
    verifyOtp t0 store phone code = (.notFound, store) ∧
    verifyOtp t1 (sendOtp t0 store phone code d).2 phone code
      = (.success, otpDelete (sendOtp t0 store phone code d).2 phone) ∧
    verifyOtp t2 (verifyOtp t1 (sendOtp t0 store phone code d).2 phone code).2
        phone code
      = (.notFound,
         (verifyOtp t1 (sendOtp t0 store phone code d).2 phone code).2) := by
  have hs := sendOtp_snd t0 store phone code d hp
  have hlt : ¬ (t0 + otpTtlMs < t1) := by omega
  refine ⟨?_, ?_, ?_⟩
  · simp [verifyOtp, hp, hc, h0]
  · rw [hs]
    simp [verifyOtp, hp, hc, otpGet_otpSet_self, hlt]
  · have h2 : verifyOtp t1 (sendOtp t0 store phone code d).2 phone code
        = (.success, otpDelete (sendOtp t0 store phone code d).2 phone) := by
      rw [hs]; simp [verifyOtp, hp, hc, otpGet_otpSet_self, hlt]
    rw [h2, hs]
    simp [verifyOtp, hp, hc, otpDelete_otpSet_self, otpGet_otpDelete_self]

/-- Witness for C1 at a concrete phone, code and times. -/
theorem otp_code_single_use_witness :
    verifyOtp 0 ([] : OtpStore) "p1" "123456" = (.notFound, []) ∧
    verifyOtp 7 (sendOtp 0 [] "p1" "123456" .noClient).2 "p1" "123456"
      = (.success, otpDelete (sendOtp 0 [] "p1" "123456" .noClient).2 "p1") ∧
    verifyOtp 9
        (verifyOtp 7 (sendOtp 0 [] "p1" "123456" .noClient).2 "p1" "123456").2
        "p1" "123456"
      = (.notFound,
         (verifyOtp 7 (sendOtp 0 [] "p1" "123456" .noClient).2 "p1" "123456").2) :=
  otp_code_single_use [] "p1" "123456" 0 7 9 .noClient
    (by decide) (by decide) rfl (by decide)

/-- C4: once the stored entry's `expiresAt` (five minutes after the send) has
passed, a verify for that phone fails with Expired whatever code is submitted,
and the call deletes the entry. -/
theorem otp_expired_regardless_of_code (store : OtpStore) (phone code c : String)
    (t0 t2 : Nat) (d : Delivery)
    (hp : phone ≠ "") (hc : c ≠ "") (ht : t0 + otpTtlMs < t2) :
    verifyOtp t2 (sendOtp t0 store phone code d).2 phone c
      = (.expired, otpDelete (sendOtp t0 store phone code d).2 phone) ∧
    otpGet (otpDelete (sendOtp t0 store phone code d).2 phone) phone = none := by
  have hs := sendOtp_snd t0 store phone code d hp
  rw [hs]
  refine ⟨?_, ?_⟩
  · simp [verifyOtp, hp, hc, otpGet_otpSet_self, ht]
  · exact otpGet_otpDelete_self _ _

/-- Witness for C4 at a concrete phone, mismatching code and time past expiry. -/
theorem otp_expired_regardless_of_code_witness :
    verifyOtp 300001 (sendOtp 0 [] "p1" "123456" .noClient).2 "p1" "999999"
      = (.expired, otpDelete (sendOtp 0 [] "p1" "123456" .noClient).2 "p1") ∧
    otpGet (otpDelete (sendOtp 0 [] "p1" "123456" .noClient).2 "p1") "p1"
      = none :=
  otp_expired_regardless_of_code [] "p1" "123456" "999999" 0 300001 .noClient
    (by decide) (by decide) (by decide)

/-- C5 counterexample: `genOtp()` can return the same 6-digit code twice.  When
the second send regenerates the very code that was stored before, a verify that
submits the previous code succeeds instead of failing with Mismatch. -/
theorem otp_resend_same_code_not_mismatch :
    (verifyOtp 0
        (sendOtp 0 (sendOtp 0 [] "p1" "111111" .noClient).2 "p1" "111111"
          .noClient).2
        "p1" "111111").1 = .success := by decide

/-- C5 (amended): after a second send replaces the entry with a code different
from the previous one, a verify before the new entry's expiry that submits the
previous code fails with Mismatch (and leaves the store unchanged). -/
theorem otp_resend_invalidates_old_code (store : OtpStore)
    (phone oldCode newCode : String) (t0 t1 t2 : Nat) (d1 d2 : Delivery)
    (hp : phone ≠ "") (hold : oldCode ≠ "") (hne : newCode ≠ oldCode)
    (ht : t2 ≤ t1 + otpTtlMs) :
    verifyOtp t2
        (sendOtp t1 (sendOtp t0 store phone oldCode d1).2 phone newCode d2).2
        phone oldCode
      = (.mismatch,
         (sendOtp t1 (sendOtp t0 store phone oldCode d1).2 phone newCode d2).2) := by
  have hs := sendOtp_snd t1 (sendOtp t0 store phone oldCode d1).2 phone newCode d2 hp
  have hlt : ¬ (t1 + otpTtlMs < t2) := by omega
  rw [hs]
  simp [verifyOtp, hp, hold, otpGet_otpSet_self, hlt, hne]

/-- Witness for the amended C5 at concrete codes and times. -/
theorem otp_resend_invalidates_old_code_witness :
    verifyOtp 10
        (sendOtp 5 (sendOtp 0 [] "p1" "111111" .noClient).2 "p1" "222222"
          .noClient).2
        "p1" "111111"
      = (.mismatch,
         (sendOtp 5 (sendOtp 0 [] "p1" "111111" .noClient).2 "p1" "222222"
           .noClient).2) :=
  otp_resend_invalidates_old_code [] "p1" "111111" "222222" 0 5 10
    .noClient .noClient (by decide) (by decide) (by decide) (by decide)

/-- C6: when the Twilio delivery attempt throws, `POST /send-otp` answers
HTTP 500 with `success: false` (not a success), yet the entry written to the
store before the attempt remains present and a later correct verify before
expiry still succeeds. -/
theorem otp_delivery_failure_surfaced (store : OtpStore) (phone code : String)
    (t0 t1 : Nat) (hp : phone ≠ "") (hc : code ≠ "")
    (ht : t1 ≤ t0 + otpTtlMs) :
    (sendOtp t0 store phone code .providerError).1 = .sendFailed ∧
    SendResult.statusCode (sendOtp t0 store phone code .providerError).1 = 500 ∧
    SendResult.successFlag (sendOtp t0 store phone code .providerError).1
      = some false ∧
    otpGet (sendOtp t0 store phone code .providerError).2 phone
      = some ⟨code, t0 + otpTtlMs⟩ ∧
    (verifyOtp t1 (sendOtp t0 store phone code .providerError).2 phone code).1
      = .success := by
  have hs := sendOtp_snd t0 store phone code .providerError hp
  have h1 : (sendOtp t0 store phone code .providerError).1 = .sendFailed := by
    simp [sendOtp, hp]
  have hlt : ¬ (t0 + otpTtlMs < t1) := by omega
  refine ⟨h1, by rw [h1]; rfl, by rw [h1]; rfl, ?_, ?_⟩
  · rw [hs]; exact otpGet_otpSet_self _ _ _
  · rw [hs]; simp [verifyOtp, hp, hc, otpGet_otpSet_self, hlt]

/-- Witness for C6 at a concrete phone, code and times. -/
theorem otp_delivery_failure_surfaced_witness :
    (sendOtp 0 ([] : OtpStore) "p1" "123456" .providerError).1 = .sendFailed ∧
    SendResult.statusCode (sendOtp 0 ([] : OtpStore) "p1" "123456"
      .providerError).1 = 500 ∧
    SendResult.successFlag (sendOtp 0 ([] : OtpStore) "p1" "123456"
      .providerError).1 = some false ∧
    otpGet (sendOtp 0 ([] : OtpStore) "p1" "123456" .providerError).2 "p1"
      = some ⟨"123456", 0 + otpTtlMs⟩ ∧
    (verifyOtp 60000 (sendOtp 0 ([] : OtpStore) "p1" "123456"
      .providerError).2 "p1" "123456").1 = .success :=
  otp_delivery_failure_surfaced [] "p1" "123456" 0 60000
    (by decide) (by decide) (by decide)

/-- A market-price document (`{ grade, price, previousPrice, updatedAt }` as
written by `PATCH /market-prices`; `previousPrice` is `null` on first upsert). -/
structure ShrimpPrice where
  grade : String
  price : Int
  previousPrice : Option Int
  updatedAt : Nat
deriving Repr, DecidableEq

/-- The `market_prices` collection, in insertion order. -/
abbrev PricesColl := List ShrimpPrice

/-- `pricesColl.findOne({ grade })`: first document whose grade matches. -/
def findPrice : PricesColl → String → Option ShrimpPrice
  | [], _ => none
  | p :: rest, g => if p.grade = g then some p else findPrice rest g

/-- `pricesColl.updateOne({ grade }, { $set: updated }, { upsert: true })`:
overwrite the first matching document, or append when none matches. -/
def upsertPrice : PricesColl → String → ShrimpPrice → PricesColl
  | [], _, doc => [doc]
  | p :: rest, g, doc =>
      if p.grade = g then doc :: rest else p :: upsertPrice rest g doc

/-- Outcome of `PATCH /market-prices`. -/
inductive PatchResult where
  | badRequest            -- 400 "Invalid payload"
  | ok (price : ShrimpPrice)  -- 200 { success: true, price }
deriving Repr, DecidableEq

/-- `PATCH /market-prices` of `src/api-backend/server.js` (`price` is always a
number here, so only the grade truthiness check of the payload guard remains). -/
def patchMarketPrice (db : PricesColl) (grade : String) (price : Int)
    (now : Nat) : PatchResult × PricesColl :=
  if grade = "" then (.badRequest, db)
  else
    let previousPrice := (findPrice db grade).map (fun p => p.price)
    let updated : ShrimpPrice := ⟨grade, price, previousPrice, now⟩
    (.ok updated, upsertPrice db grade updated)

/-- Modelled from the spec: `MOCK_SHRIMP_PRICES` lives in `src/constants.ts`,
which is not among the provided sources; the spec records only that the price
store is "seeded with defaults on first read".  Representative default rows —
no claim depends on the particular values. -/
def MOCK_SHRIMP_PRICES : List ShrimpPrice :=
  [⟨"Premium", 500, none, 0⟩, ⟨"A", 400, none, 0⟩, ⟨"B", 300, none, 0⟩]

/-- `getPricesDb()` of the client facade: parse the stored list, or seed the
defaults on first access (the write-back of the seed is the returned value). -/
def getPricesDb (storage : Option (List ShrimpPrice)) : List ShrimpPrice :=
  match storage with
  | some db => db
  | none => MOCK_SHRIMP_PRICES

/-- The `updateMarketPrice` local fallback body: `findIndex` on the grade,
throw `'Price for grade not found'` when absent, else shift the current price
into `previousPrice` and write the row back in place. -/
def fallbackUpdatePrice : List ShrimpPrice → String → Int →
    Except String (ShrimpPrice × List ShrimpPrice)
  | [], _, _ => .error "Price for grade not found"
  | p :: rest, g, newPrice =>
      if p.grade = g then
        .ok ({ p with price := newPrice, previousPrice := some p.price },
             { p with price := newPrice, previousPrice := some p.price } :: rest)
      else
        match fallbackUpdatePrice rest g newPrice with
        | .ok (u, rest') => .ok (u, p :: rest')
        | .error e => .error e

/-- The `updateMarketPrice` fallback applied to the local price store. -/
def updateMarketPriceFallback (storage : Option (List ShrimpPrice))
    (grade : String) (newPrice : Int) :
    Except String (ShrimpPrice × List ShrimpPrice) :=
  fallbackUpdatePrice (getPricesDb storage) grade newPrice

/-- `GET /market-status`: `doc ? !!doc.value : true` over the `app_meta`
document with key `market_status` (argument: its stored value, if any). -/
def getMarketStatusServer (marketStatusDoc : Option Bool) : Bool :=
  match marketStatusDoc with
  | some v => v
  | none => true

/-- The `getMarketStatus` local fallback: parse the stored value, or `true`
when `localStorage.getItem` returns null. -/
def getMarketStatusFallback (stored : Option Bool) : Bool :=
  match stored with
  | some v => v
  | none => true

/-- JS `a || b` over a possibly-unset string environment variable: both an
unset variable and the empty string are falsy. -/
def jsOr (a : Option String) (b : String) : String :=
  match a with
  | some s => if s = "" then b else s
  | none => b

/-- `API_BASE = import.meta.env.VITE_API_BASE_URL || import.meta.env.VITE_API_BASE
|| 'http://localhost:4000'`. -/
def API_BASE (viteApiBaseUrl viteApiBase : Option String) : String :=
  jsOr viteApiBaseUrl (jsOr viteApiBase "http://localhost:4000")

/-- What the `fetch` inside `tryFetch` would produce for the request. -/
inductive FetchOutcome (α : Type) where
  | networkError (msg : String)   -- fetch rejected
  | httpError (status : Nat) (statusText bodyText : String)  -- !res.ok
  | okJson (data : α)             -- res.ok, body parsed
  | okNotJson                     -- res.ok, res.json() failed → data = null
deriving Repr, DecidableEq

/-- `tryFetch` reaches its `fetch` call exactly when `API_BASE` is truthy. -/
def networkAttempted (apiBase : String) : Bool := apiBase != ""

/-- `tryFetch` of the client facade.  The fallback is a value of
`Except String α`: `.error` models a fallback that throws.  `.ok none` is the
`return data as T` with `data = null`.  In the `!res.ok` and unparsable-body
branches a throwing fallback is invoked inside the `try`, so the outer `catch`
sees the fallback's error, re-invokes the fallback, and `throw err` re-raises
the fallback's error; only in the genuine network-error branch is `err` the
original fetch error. -/
def tryFetch {α : Type} (apiBase : String) (outcome : FetchOutcome α)
    (fallback : Option (Except String α)) : Except String (Option α) :=
  if apiBase = "" then
    match fallback with
    | some fb => fb.map some
    | none => .error "No API base configured and no fallback provided."
  else
    match outcome with
    | .okJson data => .ok (some data)
    | .okNotJson =>
        match fallback with
        | some fb => fb.map some
        | none => .ok none
    | .httpError status statusText bodyText =>
        match fallback with
        | some fb => fb.map some
        | none =>
            .error ("Request failed: " ++ toString status ++ " " ++ statusText
              ++ " " ++ bodyText)
    | .networkError msg =>
        match fallback with
        | some (.ok v) => .ok (some v)
        | some (.error _) => .error msg
        | none => .error msg

/-- Response shapes `getMarketPrices` may receive: a bare array, a
`{ success, prices }` envelope, or anything else. -/
inductive PricesResp where
  | arr (prices : List ShrimpPrice)
  | env (success : Bool) (prices : List ShrimpPrice)
  | other
deriving Repr, DecidableEq

/-- The `.then` normalization of `getMarketPrices`: a bare array is returned
as-is, an envelope's `prices` is extracted, anything else falls back to
`getPricesDb()`. -/
def normalizePricesResp (r : Option PricesResp)
    (storage : Option (List ShrimpPrice)) : List ShrimpPrice :=
  match r with
  | some (.arr ps) => ps
  | some (.env _ ps) => ps
  | _ => getPricesDb storage

/-- `getMarketPrices()` of the client facade: `tryFetch('/market-prices')` with
the `getPricesDb()` fallback, then shape normalization. -/
def getMarketPrices (viteApiBaseUrl viteApiBase : Option String)
    (outcome : FetchOutcome PricesResp)
    (storage : Option (List ShrimpPrice)) : Except String (List ShrimpPrice) :=
  (tryFetch (API_BASE viteApiBaseUrl viteApiBase) outcome
      (some (.ok (.arr (getPricesDb storage))))).map
    (fun r => normalizePricesResp r storage)

/-- A harvest-request document as written by `POST /harvest-requests`. -/
structure HarvestRequest where
  farmerId : String
  grade : String
  quantity : Nat
  location : String
  id : String
  status : String
  timestamp : Nat
deriving Repr, DecidableEq

/-- The `harvest_requests` collection, in insertion order. -/
abbrev HarvestColl := List HarvestRequest

/-- The request body of `POST /harvest-requests`
(`farmerId, grade, quantity, location`). -/
structure HarvestInput where
  farmerId : String
  grade : String
  quantity : Nat
  location : String
deriving Repr, DecidableEq

/-- Outcome of `POST /harvest-requests`. -/
inductive SubmitResult where
  | badRequest                     -- 400 "Missing fields"
  | created (request : HarvestRequest)  -- 201 { success: true, request }
deriving Repr, DecidableEq

/-- The document built by `POST /harvest-requests`
(`rand` stands for `Math.random().toString(36).substr(2, 9)`). -/
def mkHarvestRequest (data : HarvestInput) (now : Nat) (rand : String) :
    HarvestRequest :=
  { farmerId := data.farmerId, grade := data.grade, quantity := data.quantity,
    location := data.location,
    id := "req_" ++ toString now ++ "_" ++ rand,
    status := "Pending Approval", timestamp := now }

/-- `POST /harvest-requests`: truthiness guard on `farmerId`, `grade`,
`quantity` (so quantity 0 is rejected), then `insertOne(newReq)`. -/
def submitHarvestRequest (db : HarvestColl) (data : HarvestInput) (now : Nat)
    (rand : String) : SubmitResult × HarvestColl :=
  if data.farmerId = "" ∨ data.grade = "" ∨ data.quantity = 0 then
    (.badRequest, db)
  else
    (.created (mkHarvestRequest data now rand), db ++ [mkHarvestRequest data now rand])

/-- The comparator of `.sort({ timestamp: -1 })`: newest first. -/
def tsDesc (a b : HarvestRequest) : Bool := b.timestamp ≤ a.timestamp

/-- `GET /harvest-requests`: optional farmerId filter, then the
timestamp-descending sort. -/
def listHarvestRequests (db : HarvestColl) (farmerId : Option String) :
    List HarvestRequest :=
  (match farmerId with
   | some f => db.filter (fun (r : HarvestRequest) => r.farmerId == f)
   | none => db).mergeSort tsDesc

theorem findPrice_of_not_mem (db : PricesColl) (g : String)
    (h : ∀ q ∈ db, q.grade ≠ g) : findPrice db g = none := by
  induction db with
  | nil => rfl
  | cons p rest ih =>
      have hp : p.grade ≠ g := h p (by simp)
      simp only [findPrice, hp, if_false]
      exact ih (fun q hq => h q (by simp [hq]))

theorem upsertPrice_of_not_mem (db : PricesColl) (g : String) (doc : ShrimpPrice)
    (h : ∀ q ∈ db, q.grade ≠ g) : upsertPrice db g doc = db ++ [doc] := by
  induction db with
  | nil => rfl
  | cons p rest ih =>
      have hp : p.grade ≠ g := h p (by simp)
      simp only [upsertPrice, hp, if_false, List.cons_append, List.cons.injEq,
        true_and]
      exact ih (fun q hq => h q (by simp [hq]))

theorem findPrice_upsertPrice_self (db : PricesColl) (g : String)
    (doc : ShrimpPrice) (hd : doc.grade = g) :
    findPrice (upsertPrice db g doc) g = some doc := by
  induction db with
  | nil => simp [upsertPrice, findPrice, hd]
  | cons p rest ih =>
      by_cases hp : p.grade = g
      · simp [upsertPrice, findPrice, hp, hd]
      · simp [upsertPrice, findPrice, hp, ih]

theorem fallbackUpdatePrice_of_not_mem (db : List ShrimpPrice) (g : String)
    (newPrice : Int) (h : ∀ q ∈ db, q.grade ≠ g) :
    fallbackUpdatePrice db g newPrice = .error "Price for grade not found" := by
  induction db with
  | nil => rfl
  | cons p rest ih =>
      have hp : p.grade ≠ g := h p (by simp)
      simp only [fallbackUpdatePrice, hp, if_false]
      rw [ih (fun q hq => h q (by simp [hq]))]

/-- C10: before the market status has ever been set, both implementations
report the market open: the server route finds no `app_meta` document and
returns `true`, and the client fallback finds nothing stored and returns
`true`. -/
theorem market_status_defaults_open :
    getMarketStatusServer none = true ∧ getMarketStatusFallback none = true :=
  ⟨rfl, rfl⟩

/-- C8: updating the price of a grade already stored shifts the held price
into `previousPrice`; in particular updating Premium 500 → 550 → 600 yields
`{price 550, previousPrice 500}` then `{price 600, previousPrice 550}`. -/
theorem price_update_shifts_previous (db : PricesColl) (g : String) (p : Int)
    (now : Nat) (ex : ShrimpPrice) (hg : g ≠ "")
    (hf : findPrice db g = some ex) :
    (patchMarketPrice db g p now).1 = .ok ⟨g, p, some ex.price, now⟩ ∧
    findPrice (patchMarketPrice db g p now).2 g
      = some ⟨g, p, some ex.price, now⟩ ∧
    patchMarketPrice [⟨"Premium", 500, none, 0⟩] "Premium" 550 1
      = (.ok ⟨"Premium", 550, some 500, 1⟩, [⟨"Premium", 550, some 500, 1⟩]) ∧
    patchMarketPrice
        (patchMarketPrice [⟨"Premium", 500, none, 0⟩] "Premium" 550 1).2
        "Premium" 600 2
      = (.ok ⟨"Premium", 600, some 550, 2⟩, [⟨"Premium", 600, some 550, 2⟩]) := by
  refine ⟨?_, ?_, by decide, by decide⟩
  · simp [patchMarketPrice, hg, hf]
  · simp only [patchMarketPrice, hg, if_false, hf, Option.map_some]
    exact findPrice_upsertPrice_self db g _ rfl

/-- Witness for C8 at the Premium 500 → 550 instance. -/
theorem price_update_shifts_previous_witness :
    (patchMarketPrice [⟨"Premium", 500, none, 0⟩] "Premium" 550 1).1
      = .ok ⟨"Premium", 550, some 500, 1⟩ ∧
    findPrice (patchMarketPrice [⟨"Premium", 500, none, 0⟩] "Premium" 550 1).2
        "Premium"
      = some ⟨"Premium", 550, some 500, 1⟩ ∧
    patchMarketPrice [⟨"Premium", 500, none, 0⟩] "Premium" 550 1
      = (.ok ⟨"Premium", 550, some 500, 1⟩, [⟨"Premium", 550, some 500, 1⟩]) ∧
    patchMarketPrice
        (patchMarketPrice [⟨"Premium", 500, none, 0⟩] "Premium" 550 1).2
        "Premium" 600 2
      = (.ok ⟨"Premium", 600, some 550, 2⟩, [⟨"Premium", 600, some 550, 2⟩]) :=
  price_update_shifts_previous [⟨"Premium", 500, none, 0⟩] "Premium" 550 1
    ⟨"Premium", 500, none, 0⟩ (by decide) rfl

/-- C9: on a grade absent from the price store the two implementations
diverge: the server's PATCH upserts a new row with `previousPrice = null` and
answers success, while the client fallback throws
`'Price for grade not found'`. -/
theorem unknown_grade_server_client_divergence (db clientDb : PricesColl)
    (g : String) (p : Int) (now : Nat) (hg : g ≠ "")
    (hs : ∀ q ∈ db, q.grade ≠ g) (hc : ∀ q ∈ clientDb, q.grade ≠ g) :
    (patchMarketPrice db g p now).1 = .ok ⟨g, p, none, now⟩ ∧
    (patchMarketPrice db g p now).2 = db ++ [⟨g, p, none, now⟩] ∧
    updateMarketPriceFallback (some clientDb) g p
      = .error "Price for grade not found" := by
  have hfind := findPrice_of_not_mem db g hs
  refine ⟨?_, ?_, ?_⟩
  · simp [patchMarketPrice, hg, hfind]
  · simp only [patchMarketPrice, hg, if_false, hfind, Option.map_none]
    exact upsertPrice_of_not_mem db g _ hs
  · exact fallbackUpdatePrice_of_not_mem clientDb g p hc

/-- Witness for C9: grade "Jumbo" is in neither the server collection nor the
seeded client store. -/
theorem unknown_grade_server_client_divergence_witness :
    (patchMarketPrice [⟨"Premium", 500, none, 0⟩] "Jumbo" 700 3).1
      = .ok ⟨"Jumbo", 700, none, 3⟩ ∧
    (patchMarketPrice [⟨"Premium", 500, none, 0⟩] "Jumbo" 700 3).2
      = [⟨"Premium", 500, none, 0⟩] ++ [⟨"Jumbo", 700, none, 3⟩] ∧
    updateMarketPriceFallback (some MOCK_SHRIMP_PRICES) "Jumbo" 700
      = .error "Price for grade not found" :=
  unknown_grade_server_client_divergence [⟨"Premium", 500, none, 0⟩]
    MOCK_SHRIMP_PRICES "Jumbo" 700 3 (by decide) (by decide) (by decide)

/-- C2 counterexample: with both env vars unset, `API_BASE` defaults to the
non-empty `http://localhost:4000`, so `tryFetch` does reach its fetch call —
and when that call succeeds, the remote data, not the seeded default list, is
returned. -/
theorem getMarketPrices_env_unset_attempts_network :
    API_BASE none none = "http://localhost:4000" ∧
    networkAttempted (API_BASE none none) = true ∧
    getMarketPrices none none (.okJson (.arr [⟨"X", 42, none, 0⟩])) none
      = .ok [⟨"X", 42, none, 0⟩] ∧
    getPricesDb none ≠ [⟨"X", 42, none, 0⟩] :=
  ⟨rfl, rfl, rfl, by decide⟩

/-- C2 (amended): with the base-address env vars unset (or empty),
`API_BASE` defaults to `http://localhost:4000` and a network call is
attempted; the seeded default price list is returned only through the
fallback, when that call fails and nothing is stored locally yet. -/
theorem getMarketPrices_default_base_network_fallback (e1 e2 : Option String)
    (msg : String) (h1 : e1 = none ∨ e1 = some "")
    (h2 : e2 = none ∨ e2 = some "") :
    API_BASE e1 e2 = "http://localhost:4000" ∧
    networkAttempted (API_BASE e1 e2) = true ∧
    getMarketPrices e1 e2 (.networkError msg) none = .ok MOCK_SHRIMP_PRICES := by
  have hb : API_BASE e1 e2 = "http://localhost:4000" := by
    rcases h1 with h1 | h1 <;> rcases h2 with h2 | h2 <;>
      simp [API_BASE, jsOr, h1, h2]
  refine ⟨hb, by rw [hb]; rfl, ?_⟩
  simp only [getMarketPrices, hb]
  rfl

/-- Witness for the amended C2 with one env var unset and the other empty. -/
theorem getMarketPrices_default_base_network_fallback_witness :
    API_BASE none (some "") = "http://localhost:4000" ∧
    networkAttempted (API_BASE none (some "")) = true ∧
    getMarketPrices none (some "") (.networkError "fetch failed") none
      = .ok MOCK_SHRIMP_PRICES :=
  getMarketPrices_default_base_network_fallback none (some "") "fetch failed"
    (Or.inl rfl) (Or.inr rfl)

/-- C3 counterexample: on a non-OK HTTP status with a fallback that throws,
the facade rejects with the fallback's error, not with the request-failure
error the claim promises. -/
theorem tryFetch_http_error_keeps_fallback_error :
    tryFetch (α := Nat) "http://localhost:4000"
        (.httpError 500 "Internal Server Error" "")
        (some (.error "Price for grade not found"))
      = .error "Price for grade not found" ∧
    tryFetch (α := Nat) "http://localhost:4000"
        (.httpError 500 "Internal Server Error" "")
        (some (.error "Price for grade not found"))
      ≠ .error "Request failed: 500 Internal Server Error " := by
  refine ⟨rfl, ?_⟩
  intro h
  rw [show tryFetch (α := Nat) "http://localhost:4000"
      (.httpError 500 "Internal Server Error" "")
      (some (.error "Price for grade not found"))
      = .error "Price for grade not found" from rfl] at h
  simp at h

/-- C3 (amended): a throwing fallback lets the original error through only on
the network-error path (the fetch itself rejected); on a non-OK status or an
unparsable body the facade rejects with the fallback's own error. -/
theorem tryFetch_throwing_fallback_behaviour {α : Type} (apiBase msg e : String)
    (status : Nat) (st bt : String) (hb : apiBase ≠ "") :
    tryFetch (α := α) apiBase (.networkError msg) (some (.error e))
      = .error msg ∧
    tryFetch (α := α) apiBase (.httpError status st bt) (some (.error e))
      = .error e ∧
    tryFetch (α := α) apiBase .okNotJson (some (.error e)) = .error e := by
  refine ⟨?_, ?_, ?_⟩ <;> simp [tryFetch, hb, Except.map]

/-- Witness for the amended C3 at a concrete base address and errors. -/
theorem tryFetch_throwing_fallback_behaviour_witness :
    tryFetch (α := Nat) "http://localhost:4000" (.networkError "fetch failed")
        (some (.error "boom")) = .error "fetch failed" ∧
    tryFetch (α := Nat) "http://localhost:4000"
        (.httpError 500 "Internal Server Error" "") (some (.error "boom"))
      = .error "boom" ∧
    tryFetch (α := Nat) "http://localhost:4000" .okNotJson
        (some (.error "boom")) = .error "boom" :=
  tryFetch_throwing_fallback_behaviour "http://localhost:4000" "fetch failed"
    "boom" 500 "Internal Server Error" "" (by decide)

theorem sorted_listHarvestRequests (db : HarvestColl) (fid : Option String) :
    (listHarvestRequests db fid).Pairwise
      (fun a b => b.timestamp ≤ a.timestamp) := by
  have htrans : ∀ a b c : HarvestRequest, tsDesc a b → tsDesc b c → tsDesc a c := by
    intro a b c h1 h2
    simp only [tsDesc, decide_eq_true_eq] at *
    omega
  have htotal : ∀ a b : HarvestRequest, tsDesc a b || tsDesc b a := by
    intro a b
    simp only [tsDesc, Bool.or_eq_true, decide_eq_true_eq]
    omega
  have h := List.sorted_mergeSort htrans htotal
    (match fid with
     | some f => db.filter (fun (r : HarvestRequest) => r.farmerId == f)
     | none => db)
  refine (List.Pairwise.imp ?_ h)
  intro a b hab
  simpa [tsDesc] using hab

/-- C7: a well-formed submission stores a record with status
"Pending Approval" and timestamp ≤ the current time; listing by the submitting
farmerId returns it, listing by any other farmerId does not, and every listing
is sorted by timestamp descending. -/
theorem harvest_submit_and_list (db : HarvestColl) (data : HarvestInput)
    (now : Nat) (rand : String)
    (hf : data.farmerId ≠ "") (hg : data.grade ≠ "") (hq : data.quantity ≠ 0) :
    (submitHarvestRequest db data now rand).1
      = .created (mkHarvestRequest data now rand) ∧
    (mkHarvestRequest data now rand).status = "Pending Approval" ∧
    (mkHarvestRequest data now rand).timestamp ≤ now ∧
    mkHarvestRequest data now rand
      ∈ listHarvestRequests (submitHarvestRequest db data now rand).2
          (some data.farmerId) ∧
    (∀ other, other ≠ data.farmerId →
      mkHarvestRequest data now rand
        ∉ listHarvestRequests (submitHarvestRequest db data now rand).2
            (some other)) ∧
    (∀ db2 fid, (listHarvestRequests db2 fid).Pairwise
        (fun a b => b.timestamp ≤ a.timestamp)) := by
  have hsub : (submitHarvestRequest db data now rand).2
      = db ++ [mkHarvestRequest data now rand] := by
    simp [submitHarvestRequest, hf, hg, hq]
  refine ⟨by simp [submitHarvestRequest, hf, hg, hq], rfl, Nat.le_refl now,
    ?_, ?_, fun db2 fid => sorted_listHarvestRequests db2 fid⟩
  · rw [hsub]
    simp [listHarvestRequests, List.mem_filter, mkHarvestRequest]
  · intro other hne
    rw [hsub]
    simp only [listHarvestRequests, List.mem_mergeSort, List.mem_filter,
      beq_iff_eq, mkHarvestRequest]
    intro hmem
    exact hne hmem.2.symm

/-- Witness for C7 at farmerId "f1", grade "A", quantity 10. -/
theorem harvest_submit_and_list_witness :
    (submitHarvestRequest [] ⟨"f1", "A", 10, "loc"⟩ 100 "abc").1
      = .created (mkHarvestRequest ⟨"f1", "A", 10, "loc"⟩ 100 "abc") ∧
    (mkHarvestRequest ⟨"f1", "A", 10, "loc"⟩ 100 "abc").status
      = "Pending Approval" ∧
    (mkHarvestRequest ⟨"f1", "A", 10, "loc"⟩ 100 "abc").timestamp ≤ 100 ∧
    mkHarvestRequest ⟨"f1", "A", 10, "loc"⟩ 100 "abc"
      ∈ listHarvestRequests
          (submitHarvestRequest [] ⟨"f1", "A", 10, "loc"⟩ 100 "abc").2
          (some "f1") ∧
    (∀ other, other ≠ "f1" →
      mkHarvestRequest ⟨"f1", "A", 10, "loc"⟩ 100 "abc"
        ∉ listHarvestRequests
            (submitHarvestRequest [] ⟨"f1", "A", 10, "loc"⟩ 100 "abc").2
            (some other)) ∧
    (∀ db2 fid, (listHarvestRequests db2 fid).Pairwise
        (fun a b => b.timestamp ≤ a.timestamp)) :=
  harvest_submit_and_list [] ⟨"f1", "A", 10, "loc"⟩ 100 "abc"
    (by decide) (by decide) (by decide)

end AquaBridge
